import Mathlib

/-!
Shallow embedding of the IoTLab telemetry pipeline.

Source files embedded here:
* `src/device_types.py` — `DeviceType.simulate_failure`, `DeviceType.add_noise`,
  `TemperatureSensor.generate_telemetry` / `detect_anomalies`,
  `VibrationSensor.generate_telemetry` (machine-state logic),
  `FlowMeter.generate_telemetry`, `DEVICE_TYPES`.
* `src/iotlab/device_simulator/simulator.py` — `DeviceSimulator._reconnect`,
  `DeviceSimulator.add_device`.
* `src/iotlab/ingest_api/telemetry/mqtt_client.py` — `MQTTClient.process_telemetry`,
  `process_anomalies`, `broadcast_telemetry`, `broadcast_anomaly`.

Modelling conventions:
* Python floats are modelled as `ℚ` (exact arithmetic; the claims are about the
  algorithms, not IEEE-754 rounding).
* Each call to `random.random()` is a parameter `u : ℚ` with `0 ≤ u < 1`;
  `random.randint(a, b)` is a parameter constrained to `a ≤ d ≤ b`;
  `random.choices(pop, weights)` (all weights positive) is an arbitrary index
  into the population list, modelled as `i % pop.length`.
* `math.sin` outputs are oracle parameters (constrained to `[-1, 1]` where a
  claim needs them).
* Python `round(x, 2)` is `round2`: round-half-to-even at two decimals.
* Python `x % m` on nonnegative floats is `qmod x m = x - m * ⌊x / m⌋`.
-/

/-- `round(x)` to the nearest integer, ties to even — Python 3 `round`
semantics. (`Rat.floor` is used rather than `⌊⌋` so the function evaluates in
the kernel; `rat_floor_eq` bridges the two.) -/
def rhe (q : ℚ) : ℤ :=
  if q - q.floor < 1/2 then q.floor
  else if 1/2 < q - q.floor then q.floor + 1
  else if q.floor % 2 = 0 then q.floor else q.floor + 1

/-- Python `round(x, 2)`: round to two decimal places, ties to even. -/
def round2 (q : ℚ) : ℚ := (rhe (q * 100) : ℚ) / 100

/-- Python `x % m` for rationals: `x - m * floor(x / m)`. -/
def qmod (x m : ℚ) : ℚ := x - m * (Rat.floor (x / m) : ℚ)

/-! ## Failure-injection state machine — `DeviceType.simulate_failure`
(`src/device_types.py`, lines 40–53).

State fields mirror `self.failure_state` and `self.failure_duration`; the
per-tick inputs are `trig` (the outcome of `random.random() < self.failure_rate`)
and `drawn` (the outcome of `random.randint(5, 20)`, used only on entry). -/

structure FailState where
  failure_state : Bool
  failure_duration : Int
  deriving DecidableEq, Repr

/-- `DeviceType.simulate_failure`: returns `(emitted-error-this-tick, new state)`. -/
def simulate_failure (trig : Bool) (drawn : Int) (s : FailState) : Bool × FailState :=
  if !s.failure_state && trig then
    (true, ⟨true, drawn⟩)
  else if s.failure_state then
    (true, ⟨if s.failure_duration - 1 ≤ 0 then false else true, s.failure_duration - 1⟩)
  else
    (false, s)

/-- One tick's random inputs for the failure machine. -/
structure TickIn where
  trig : Bool
  drawn : Int
  deriving DecidableEq, Repr

/-- Iterate `simulate_failure` over a sequence of ticks. -/
def runTicks : List TickIn → FailState → FailState
  | [], s => s
  | i :: ts, s => runTicks ts (simulate_failure i.trig i.drawn s).2

/-- The per-tick `simulate_failure` boolean results (error-payload flags). -/
def emitsErr : List TickIn → FailState → List Bool
  | [], _ => []
  | i :: ts, s =>
      (simulate_failure i.trig i.drawn s).1 :: emitsErr ts (simulate_failure i.trig i.drawn s).2

/-- The state invariant: an active failure always has remaining duration. -/
def FailInv (s : FailState) : Prop := s.failure_state = true → 0 < s.failure_duration

instance (s : FailState) : Decidable (FailInv s) := by
  unfold FailInv; infer_instance

/-! ## Noise — `DeviceType.add_noise` (`src/device_types.py`, lines 55–60).
`u` is the `random.random()` draw, so `noise = (u*2 - 1) * factor * value`. -/

/-- `DeviceType.add_noise`. -/
def add_noise (factor u value : ℚ) : ℚ := value + (u * 2 - 1) * factor * value

/-! ## Temperature sensor — `TemperatureSensor` (`src/device_types.py`, lines 78–195). -/

/-- Per-device parameters fixed at construction (`TemperatureSensor.__init__`
plus the base-class `noise_factor`). -/
structure TempParams where
  base_temperature : ℚ
  daily_variation : ℚ
  hourly_noise : ℚ
  noise_factor : ℚ
  deriving DecidableEq, Repr

/-- Per-tick random/oracle inputs: `trig`/`drawn` feed `simulate_failure`;
`errcode` is the synthetic error code; `df`/`hf` are the `math.sin` outputs for
the daily and hourly cycles; `uT`/`uH` are the `random.random()` draws inside
the two `add_noise` calls. -/
structure TempRand where
  trig : Bool
  drawn : Int
  errcode : String
  df : ℚ
  hf : ℚ
  uT : ℚ
  uH : ℚ
  deriving DecidableEq, Repr

/-- The non-failure `data` dict of a temperature sample. -/
structure TempData where
  temperature : ℚ
  humidity : ℚ
  battery : ℚ
  status : String
  deriving DecidableEq, Repr

/-- One inline anomaly entry produced by `detect_anomalies`. -/
structure TempAnomaly where
  severity : String
  description : String
  value : ℚ
  threshold : ℚ
  deriving DecidableEq, Repr

/-- `humidity = max(30, min(95, 100 - (temperature - 10) * 2))`
(`src/device_types.py`, lines 116–117) — the clamp applied BEFORE noise. -/
def temp_humidity_clamped (temperature : ℚ) : ℚ :=
  max 30 (min 95 (100 - (temperature - 10) * 2))

/-- `battery_level = 100 - (((current_time % 2592000) / 2592000) * 20)`
(`src/device_types.py`, line 121). -/
def temp_battery_level (t : ℚ) : ℚ :=
  100 - qmod t 2592000 / 2592000 * 20

/-- The non-failure branch of `TemperatureSensor.generate_telemetry`
(`src/device_types.py`, lines 106–128): the `data` dict before anomaly
detection. `t` is `time.time()`. -/
def temp_data (p : TempParams) (r : TempRand) (t : ℚ) : TempData :=
  let temperature :=
    add_noise p.noise_factor r.uT
      (p.base_temperature + r.df * p.daily_variation + r.hf * p.hourly_noise)
  let humidity := add_noise p.noise_factor r.uH (temp_humidity_clamped temperature)
  ⟨round2 temperature, round2 humidity, round2 (temp_battery_level t), "normal"⟩

/-- `TemperatureSensor.detect_anomalies` (`src/device_types.py`, lines 144–195). -/
def temp_detect_anomalies (d : TempData) : List TempAnomaly :=
  (if d.temperature > 30 then
      [⟨"critical", "High temperature detected", d.temperature, 30⟩]
    else if d.temperature > 28 then
      [⟨"high", "Elevated temperature", d.temperature, 28⟩]
    else if d.temperature < 10 then
      [⟨"high", "Low temperature detected", d.temperature, 10⟩]
    else [])
  ++ (if d.humidity > 90 then
      [⟨"medium", "High humidity detected", d.humidity, 90⟩]
    else if d.humidity < 35 then
      [⟨"medium", "Low humidity detected", d.humidity, 35⟩]
    else [])
  ++ (if d.battery < 20 then
      [⟨"low", "Low battery", d.battery, 20⟩]
    else [])

/-- A temperature telemetry message: the failure branch returns an error-shaped
payload (`status="error"` plus an error code); the normal branch carries the
`data` dict and any inline anomalies. -/
inductive TempPayload where
  | err (error_code : String)
  | ok (d : TempData) (anomalies : List TempAnomaly)
  deriving DecidableEq, Repr

/-- `TemperatureSensor.generate_telemetry` (`src/device_types.py`, lines 95–142):
dispatch on `simulate_failure`, then build data and inline anomalies.
(The `last_reading` write is omitted: the temperature model never reads it.) -/
def temp_generate (p : TempParams) (r : TempRand) (t : ℚ) (s : FailState) :
    TempPayload × FailState :=
  let fs := simulate_failure r.trig r.drawn s
  if fs.1 then (.err r.errcode, fs.2)
  else (.ok (temp_data p r t) (temp_detect_anomalies (temp_data p r t)), fs.2)

/-! ## Vibration sensor — `VibrationSensor.generate_telemetry`
(`src/device_types.py`, lines 218–334). Only the machine-state evolution is
relevant to the claims; the numeric vibration channels neither feed back into
the state-selection logic nor appear in any claim, so the emitted message is
modelled by its `machine_state` and optional `error_code`. -/

/-- The candidate machine states given the previous sample's state
(`src/device_types.py`, lines 229–238). All associated weights are positive. -/
def vib_states (last : Option String) : List String :=
  if last = some "starting" then ["on", "starting"]
  else if last = some "stopping" then ["off", "stopping"]
  else ["on", "on", "on", "on", "on", "off", "starting", "stopping"]

/-- Per-tick random inputs for the vibration model: failure draw, duration
draw, synthetic error code, and the `random.choices` outcome (an arbitrary
index into the candidate list). -/
structure VibRand where
  trig : Bool
  drawn : Int
  errcode : String
  choice : Nat
  deriving DecidableEq, Repr

/-- The machine-state portion of an emitted vibration sample. The failure
branch emits `machine_state="fault"` with an error code (lines 220–227). -/
structure VibOut where
  machine_state : String
  error_code : Option String
  deriving DecidableEq, Repr

/-- `VibrationSensor.generate_telemetry`, machine-state projection: returns
(sample, new failure state, new `last_reading` machine state). On the failure
branch the method returns early, so `last_reading` is left unchanged. -/
def vib_generate (r : VibRand) (s : FailState) (last : Option String) :
    VibOut × FailState × Option String :=
  let fs := simulate_failure r.trig r.drawn s
  if fs.1 then (⟨"fault", some r.errcode⟩, fs.2, last)
  else
    let sts := vib_states last
    let ms := sts.getD (r.choice % sts.length) "on"
    (⟨ms, none⟩, fs.2, some ms)

/-! ## Flow meter — `FlowMeter.generate_telemetry`
(`src/device_types.py`, lines 385–497). -/

/-- Per-device parameters fixed at construction (`FlowMeter.__init__` plus the
base-class `noise_factor`). -/
structure FlowParams where
  fluid_type : String
  target_flow_rate : ℚ
  base_pressure : ℚ
  noise_factor : ℚ
  deriving DecidableEq, Repr

/-- Per-tick random/oracle inputs: failure draw and duration, synthetic error
code, the `random.uniform(-0.1, 0.1)` flow perturbation, the three
`random.random()` noise draws, the `math.sin` output of the diurnal term, and
the `random.uniform(10000, 50000)` first-tick baseline. -/
structure FlowRand where
  trig : Bool
  drawn : Int
  errcode : String
  perturb : ℚ
  uFlow : ℚ
  uPress : ℚ
  uTemp : ℚ
  sinH : ℚ
  baseline : ℚ
  deriving DecidableEq, Repr

/-- The time-of-day step function for the flow factor
(`src/device_types.py`, lines 422–431). `hour` is `(t % 86400) / 3600`. -/
def flow_factor_base (hour : ℚ) : ℚ :=
  if hour < 6 then 3/5
  else if hour < 9 then 6/5
  else if hour < 17 then 1
  else if hour < 22 then 11/10
  else 4/5

/-- Base temperature per fluid type (`src/device_types.py`, lines 447–454). -/
def fluid_base_temp (fluid : String) : ℚ :=
  if fluid = "water" then 15
  else if fluid = "oil" then 45
  else if fluid = "coolant" then 30
  else 25

/-- The non-failure `data` dict of a flow-meter sample. -/
structure FlowData where
  flow_rate : ℚ
  pressure : ℚ
  temperature : ℚ
  total_flow : ℚ
  fluid_type : String
  status : String
  deriving DecidableEq, Repr

/-- The (unrounded) flow rate of one tick
(`src/device_types.py`, lines 418–438). -/
def flow_rate_calc (p : FlowParams) (r : FlowRand) (t : ℚ) : ℚ :=
  add_noise p.noise_factor r.uFlow
    (p.target_flow_rate * (flow_factor_base (qmod t 86400 / 3600) + r.perturb))

/-- The non-failure branch of `FlowMeter.generate_telemetry`
(`src/device_types.py`, lines 417–483): the `data` dict. `last` is the previous
`last_reading` (`None` on the first tick). -/
def flow_data (p : FlowParams) (r : FlowRand) (t : ℚ) (last : Option FlowData) :
    FlowData :=
  let flow_rate := flow_rate_calc p r t
  let pressure :=
    add_noise p.noise_factor r.uPress (max (1/2) (p.base_pressure - 1/20 * flow_rate))
  let temperature :=
    add_noise p.noise_factor r.uTemp
      (fluid_base_temp p.fluid_type - 1/50 * flow_rate + r.sinH * 2)
  let total_flow :=
    match last with
    | some d => d.total_flow + flow_rate / 60
    | none => r.baseline
  let status :=
    if flow_rate < p.target_flow_rate * (3/10) then "low_flow"
    else if flow_rate > p.target_flow_rate * (3/2) then "high_flow"
    else "normal"
  ⟨round2 flow_rate, round2 pressure, round2 temperature, round2 total_flow,
    p.fluid_type, status⟩

/-- A flow-meter telemetry message: failure branch carries an error code and
the fluid type; the normal branch carries the `data` dict. -/
inductive FlowPayload where
  | err (error_code : String) (fluid_type : String)
  | ok (d : FlowData)
  deriving DecidableEq, Repr

/-- `FlowMeter.generate_telemetry` (`src/device_types.py`, lines 405–497):
dispatch on `simulate_failure`, then build data; `last_reading` is updated only
on the non-failure branch (the failure branch returns early). -/
def flow_generate (p : FlowParams) (r : FlowRand) (t : ℚ) (s : FailState)
    (last : Option FlowData) : FlowPayload × FailState × Option FlowData :=
  let fs := simulate_failure r.trig r.drawn s
  if fs.1 then (.err r.errcode p.fluid_type, fs.2, last)
  else (.ok (flow_data p r t last), fs.2, some (flow_data p r t last))

/-! ## Simulator — `DeviceSimulator` (`src/iotlab/device_simulator/simulator.py`). -/

/-- The keys of `DEVICE_TYPES` (`src/device_types.py`, lines 561–565). -/
def DEVICE_TYPES_keys : List String := ["temperature", "vibration", "flow"]

/-- A registered simulated device (identity and type; the per-type state is
modelled separately above). -/
structure SimDevice where
  device_id : String
  dtype : String
  deriving DecidableEq, Repr

/-- `DeviceSimulator.add_device` (`simulator.py`, lines 133–151): validate the
type against `DEVICE_TYPES` first — raising `ValueError` before any mutation —
otherwise construct the device (`fresh_id` is the `uuid4` draw) and register
it. Returns the raised-or-returned value together with the registry as left by
the call. -/
def add_device (registry : List SimDevice) (device_type : String) (fresh_id : String) :
    Except String SimDevice × List SimDevice :=
  if device_type ∈ DEVICE_TYPES_keys then
    (.ok ⟨fresh_id, device_type⟩, ⟨fresh_id, device_type⟩ :: registry)
  else
    (.error ("Unknown device type: " ++ device_type), registry)

/-- `DeviceSimulator._reconnect` (`simulator.py`, lines 100–115), with the
outcome of each `self.client.reconnect()` attempt given by `ok` (attempt
indices 0-based). The loop condition `retries < max_retries` is represented by
the fuel `max_retries - retries`; after a failed attempt the code increments
`retries` and then sleeps `2 ** retries` seconds. Returns
(result, attempts made, sleep delays in order). -/
def reconnect_loop (ok : Nat → Bool) : Nat → Nat → Bool × Nat × List Nat
  | 0, _ => (false, 0, [])
  | fuel + 1, retries =>
    if ok retries then (true, 1, [])
    else
      let rest := reconnect_loop ok fuel (retries + 1)
      (rest.1, rest.2.1 + 1, 2 ^ (retries + 1) :: rest.2.2)

/-- `DeviceSimulator._reconnect` entry point (default `max_retries = 5`). -/
def device_reconnect (ok : Nat → Bool) (max_retries : Nat) : Bool × Nat × List Nat :=
  reconnect_loop ok max_retries 0

/-! ## Ingestion — `MQTTClient` (`src/iotlab/ingest_api/telemetry/mqtt_client.py`).

`Device.objects.get` is modelled by membership in the list of registered device
ids; `Telemetry.objects.create` by a persisted-sample counter whose success is
the `persistOk` parameter (the store is an external collaborator);
`AnomalyDetection.objects.create` records the row exactly as built by
`process_anomalies` — Django's `objects.create` performs no `choices`
validation, so the severity string is stored verbatim;
`channel_layer.group_send` by an append-only list of (group, message-type)
deliveries. -/

/-- One inline anomaly hint from the payload's `anomalies` array. Only the
string fields read by `process_anomalies` are modelled; `None` stands for an
absent key (`dict.get` default applies). -/
structure AnomalyHint where
  severity : Option String
  description : Option String
  deriving DecidableEq, Repr

/-- The decoded JSON payload `{timestamp?, data?, anomalies?}` as read by
`process_telemetry`. The `data` object is persisted verbatim and never
inspected, so it is kept abstract as a list of (key, printed value) pairs. -/
structure IngestPayload where
  timestamp : Option String
  data : Option (List (String × String))
  anomalies : Option (List AnomalyHint)
  deriving DecidableEq, Repr

/-- A persisted `AnomalyDetection` row (the fields the claims mention). -/
structure AnomalyRecord where
  device_id : String
  severity : String
  description : String
  deriving DecidableEq, Repr

/-- One `channel_layer.group_send` delivery: target group and message type. -/
structure Broadcast where
  group : String
  mtype : String
  deriving DecidableEq, Repr

/-- `MQTTClient.process_anomalies` (`mqtt_client.py`, lines 130–148): for each
hint, read `severity`/`description` with their `dict.get` defaults, create the
`AnomalyDetection` row, then broadcast it to the device group and the
catch-all group (`broadcast_anomaly`, lines 183–216). -/
def process_anomalies (device_id : String) :
    List AnomalyHint → List AnomalyRecord × List Broadcast
  | [] => ([], [])
  | h :: rest =>
    let row : AnomalyRecord :=
      ⟨device_id, h.severity.getD "medium", h.description.getD "Anomaly detected"⟩
    let tail := process_anomalies device_id rest
    (row :: tail.1,
      ⟨"telemetry_" ++ device_id, "anomaly_detected"⟩ ::
      ⟨"telemetry_all", "anomaly_detected"⟩ :: tail.2)

/-- The observable effects of one `process_telemetry` call. -/
structure IngestEffects where
  telemetryCount : Nat
  anomalyRows : List AnomalyRecord
  broadcasts : List Broadcast
  deriving DecidableEq, Repr

/-- The body of `MQTTClient.process_telemetry` (`mqtt_client.py`, lines 92–128)
up to its outer `try`: resolve the device (unknown id → warn and return with no
effects), persist the sample (failure raises, modelled by `persistOk = false`;
nothing later runs and nothing was yet broadcast), process inline anomalies
when the `anomalies` key is present and non-empty, then broadcast the sample to
the device group and the catch-all group (`broadcast_telemetry`, lines 150–181). -/
def process_telemetry_inner (registered : List String) (persistOk : Bool)
    (device_id : String) (p : IngestPayload) : Except String IngestEffects :=
  if device_id ∈ registered then
    if persistOk then
      let anoms :=
        match p.anomalies with
        | some hints => if hints.isEmpty then ([], []) else process_anomalies device_id hints
        | none => ([], [])
      .ok ⟨1, anoms.1,
        anoms.2 ++
          [⟨"telemetry_" ++ device_id, "telemetry_message"⟩,
           ⟨"telemetry_all", "telemetry_message"⟩]⟩
    else
      .error "PersistenceError"
  else
    .ok ⟨0, [], []⟩

/-- `MQTTClient.process_telemetry` as its caller sees it: the blanket
`except Exception` catches any persistence error, logs it and returns normally,
so the second component — the exception escaping to the caller — is always
`none`. -/
def process_telemetry (registered : List String) (persistOk : Bool)
    (device_id : String) (p : IngestPayload) : IngestEffects × Option String :=
  match process_telemetry_inner registered persistOk device_id p with
  | .ok e => (e, none)
  | .error _ => (⟨0, [], []⟩, none)

/-- The C1 payload: `{"data": {"temperature": 32, "humidity": 50, "battery": 80,
"status": "normal"}}` — no `anomalies` key. -/
def c1payload : IngestPayload :=
  ⟨none,
   some [("temperature", "32"), ("humidity", "50"), ("battery", "80"),
         ("status", "normal")],
   none⟩

/-- The C6 payload: a telemetry message whose inline anomaly hint carries an
arbitrary severity string outside the four enumerated levels. -/
def c6payload : IngestPayload :=
  ⟨none, some [("temperature", "25")],
   some [⟨some "catastrophic", some "Made-up severity"⟩]⟩

/-- A sample payload used by the C7 counterexample. -/
def c7payload : IngestPayload := ⟨none, some [("temperature", "21")], none⟩

/-! ## Claim theorems -/

theorem rat_floor_eq (q : ℚ) : q.floor = ⌊q⌋ := by
  rw [Rat.floor_def' q, Rat.floor_def]

theorem rhe_intCast (k : ℤ) : rhe (k : ℚ) = k := by
  simp [rhe, rat_floor_eq]

theorem floor_le_rhe (q : ℚ) : ⌊q⌋ ≤ rhe q := by
  unfold rhe
  simp only [rat_floor_eq]
  split_ifs <;> omega

theorem rhe_le_floor_add_one (q : ℚ) : rhe q ≤ ⌊q⌋ + 1 := by
  unfold rhe
  simp only [rat_floor_eq]
  split_ifs <;> omega

theorem rhe_mono {a b : ℚ} (h : a ≤ b) : rhe a ≤ rhe b := by
  have hf : ⌊a⌋ ≤ ⌊b⌋ := Int.floor_mono h
  rcases lt_or_eq_of_le hf with hlt | heq
  · calc rhe a ≤ ⌊a⌋ + 1 := rhe_le_floor_add_one a
      _ ≤ ⌊b⌋ := by omega
      _ ≤ rhe b := floor_le_rhe b
  · unfold rhe
    simp only [rat_floor_eq]
    rw [← heq]
    have hr : a - ⌊a⌋ ≤ b - ⌊a⌋ := by linarith
    split_ifs <;> first | omega | linarith

theorem rhe_ge (q : ℚ) : q - 1/2 ≤ (rhe q : ℚ) := by
  have h1 : (⌊q⌋ : ℚ) ≤ q := Int.floor_le q
  have h2 : q < ⌊q⌋ + 1 := Int.lt_floor_add_one q
  unfold rhe
  simp only [rat_floor_eq]
  split_ifs <;> push_cast <;> linarith

theorem rhe_le (q : ℚ) : (rhe q : ℚ) ≤ q + 1/2 := by
  have h1 : (⌊q⌋ : ℚ) ≤ q := Int.floor_le q
  have h2 : q < ⌊q⌋ + 1 := Int.lt_floor_add_one q
  unfold rhe
  simp only [rat_floor_eq]
  split_ifs <;> push_cast <;> linarith

theorem round2_mono {a b : ℚ} (h : a ≤ b) : round2 a ≤ round2 b := by
  unfold round2
  have := rhe_mono (a := a * 100) (b := b * 100) (by linarith)
  have hc : ((rhe (a * 100) : ℚ)) ≤ ((rhe (b * 100) : ℚ)) := by exact_mod_cast this
  linarith

theorem round2_int_div (k : ℤ) : round2 ((k : ℚ) / 100) = (k : ℚ) / 100 := by
  unfold round2
  have h : ((k : ℚ) / 100) * 100 = (k : ℚ) := by ring
  rw [h, rhe_intCast]

theorem round2_fix (x : ℚ) : round2 (round2 x) = round2 x := by
  unfold round2
  have h : ((rhe (x * 100) : ℚ)) / 100 * 100 = ((rhe (x * 100) : ℚ)) := by ring
  rw [h, rhe_intCast]

theorem round2_ge (x : ℚ) : x - 1/200 ≤ round2 x := by
  unfold round2
  have := rhe_ge (x * 100)
  linarith

theorem round2_le (x : ℚ) : round2 x ≤ x + 1/200 := by
  unfold round2
  have := rhe_le (x * 100)
  linarith

theorem qmod_nonneg (x m : ℚ) (hm : 0 < m) : 0 ≤ qmod x m := by
  unfold qmod
  rw [rat_floor_eq]
  have h := Int.floor_le (x / m)
  have : m * ⌊x / m⌋ ≤ m * (x / m) := by
    exact mul_le_mul_of_nonneg_left h (le_of_lt hm)
  have hxm : m * (x / m) = x := by field_simp
  linarith

theorem qmod_lt (x m : ℚ) (hm : 0 < m) : qmod x m < m := by
  unfold qmod
  rw [rat_floor_eq]
  have h := Int.lt_floor_add_one (x / m)
  have : m * (x / m) < m * (⌊x / m⌋ + 1) := by
    exact mul_lt_mul_of_pos_left h hm
  have hxm : m * (x / m) = x := by field_simp
  nlinarith [this]

/-- Evaluation rule for `round2` at exact two-decimal inputs. -/
theorem round2_eval (q : ℚ) (k : ℤ) (h : q * 100 = (k : ℚ)) :
    round2 q = (k : ℚ) / 100 := by
  unfold round2
  rw [h, rhe_intCast]


/-- C1 counterexample: publishing the Temperature sample
`{"data":{"temperature":32,...}}` (no inline anomalies) for registered device
`device-123` does NOT persist exactly one critical AnomalyEvent —
`process_telemetry` only persists inline anomaly hints and the payload carries
none, so zero anomaly rows are created (even though the broadcasts do reach
both groups). -/
theorem c1_counterexample :
    ¬ ((process_telemetry ["device-123"] true "device-123" c1payload).1.anomalyRows.length = 1 ∧
       ⟨"telemetry_device-123", "telemetry_message"⟩ ∈
         (process_telemetry ["device-123"] true "device-123" c1payload).1.broadcasts ∧
       ⟨"telemetry_all", "telemetry_message"⟩ ∈
         (process_telemetry ["device-123"] true "device-123" c1payload).1.broadcasts) := by
  decide

/-- C1 amended: publishing that sample results in one persisted Telemetry row,
ZERO persisted AnomalyEvents (the ingestion side persists only inline anomaly
hints and never re-runs detection), and the sample broadcast to both the
`telemetry_device-123` group and the `telemetry_all` group, in that order. -/
theorem c1_amended :
    (process_telemetry ["device-123"] true "device-123" c1payload).1 =
      ⟨1, [],
       [⟨"telemetry_device-123", "telemetry_message"⟩,
        ⟨"telemetry_all", "telemetry_message"⟩]⟩ ∧
    (process_telemetry ["device-123"] true "device-123" c1payload).2 = none := by
  decide

/-- C2 counterexample: when every reconnect attempt fails, `_reconnect` makes
5 attempts but its sleep delays are 2, 4, 8, 16, 32 seconds (it sleeps
`2 ** retries` AFTER incrementing `retries`, including once after the final
failed attempt), not 1, 2, 4, 8, 16 as claimed. -/
theorem reconnect_backoff_counterexample :
    device_reconnect (fun _ => false) 5 = (false, 5, [2, 4, 8, 16, 32]) ∧
    ¬ ((device_reconnect (fun _ => false) 5).2.2 = [1, 2, 4, 8, 16]) := by
  decide

/-- C2 amended: after 5 failed reconnect attempts the loop stops and returns
failure (`False`) to its caller; the exponential-backoff sleeps are
2, 4, 8, 16 and 32 seconds — one after each failed attempt, the 32-second one
occurring after the fifth (final) attempt, before giving up. -/
theorem reconnect_backoff_amended :
    device_reconnect (fun _ => false) 5 = (false, 5, [2, 4, 8, 16, 32]) := by
  decide

/-- C6 counterexample: `process_anomalies` copies the hint's severity string
verbatim into the created `AnomalyDetection` row (Django's `objects.create`
does not validate `choices`), so an incoming hint with severity
`"catastrophic"` is persisted as such — outside {low, medium, high, critical}. -/
theorem severity_passthrough_counterexample :
    (process_telemetry ["dev-1"] true "dev-1" c6payload).1.anomalyRows =
      [⟨"dev-1", "catastrophic", "Made-up severity"⟩] ∧
    "catastrophic" ∉ ["low", "medium", "high", "critical"] := by
  decide

/-- C6 amended: every AnomalyEvent row created by the ingestion side has its
severity copied verbatim from some inline hint of the payload (defaulting to
`"medium"` when the hint has no severity key) and carries the resolved device
id; the four-level invariant therefore holds only for payloads whose hints
already respect it. -/
theorem severity_passthrough_amended (device_id : String) (hints : List AnomalyHint)
    (row : AnomalyRecord) (hrow : row ∈ (process_anomalies device_id hints).1) :
    ∃ h ∈ hints,
      row.severity = h.severity.getD "medium" ∧ row.device_id = device_id := by
  induction hints with
  | nil => simp [process_anomalies] at hrow
  | cons h rest ih =>
    simp only [process_anomalies, List.mem_cons] at hrow
    rcases hrow with hEq | hTail
    · exact ⟨h, List.mem_cons_self h rest, by rw [hEq], by rw [hEq]⟩
    · obtain ⟨h', hmem, hsev, hdev⟩ := ih hTail
      exact ⟨h', List.mem_cons_of_mem h hmem, hsev, hdev⟩

/-- C6 amended witness at a concrete hint list. -/
theorem severity_passthrough_amended_witness :
    ∃ h ∈ [(⟨some "catastrophic", some "x"⟩ : AnomalyHint)],
      ((⟨"d", "catastrophic", "x"⟩ : AnomalyRecord)).severity = h.severity.getD "medium" ∧
      ((⟨"d", "catastrophic", "x"⟩ : AnomalyRecord)).device_id = "d" :=
  severity_passthrough_amended "d" [⟨some "catastrophic", some "x"⟩]
    ⟨"d", "catastrophic", "x"⟩ (by decide)

/-- C7 counterexample: when persisting the sample fails for a registered
device, the sample is indeed not broadcast — but no error reaches the caller:
the blanket `except Exception` in `process_telemetry` catches it, logs it, and
returns normally (second component `none`, never `some`). -/
theorem persistence_error_counterexample :
    ¬ ((process_telemetry ["dev-7"] false "dev-7" c7payload).1.broadcasts = [] ∧
       (process_telemetry ["dev-7"] false "dev-7" c7payload).2.isSome = true) := by
  decide

/-- C7 amended: if persisting the sample fails, nothing is broadcast, no
anomaly row is created and no sample is recorded; the persistence error is
raised inside the method (for a registered device) but is caught by the
blanket `except` and logged — it is NOT propagated to the caller. -/
theorem persistence_error_amended (registered : List String) (device_id : String)
    (p : IngestPayload) :
    (process_telemetry registered false device_id p).1.broadcasts = [] ∧
    (process_telemetry registered false device_id p).1.anomalyRows = [] ∧
    (process_telemetry registered false device_id p).1.telemetryCount = 0 ∧
    (process_telemetry registered false device_id p).2 = none ∧
    (device_id ∈ registered →
      process_telemetry_inner registered false device_id p = .error "PersistenceError") := by
  unfold process_telemetry process_telemetry_inner
  by_cases h : device_id ∈ registered <;> simp [h]

/-- C7 amended witness at a concrete registered device. -/
theorem persistence_error_amended_witness :
    (process_telemetry ["dev-7"] false "dev-7" c7payload).2 = none ∧
    process_telemetry_inner ["dev-7"] false "dev-7" c7payload = .error "PersistenceError" :=
  ⟨(persistence_error_amended ["dev-7"] "dev-7" c7payload).2.2.2.1,
   (persistence_error_amended ["dev-7"] "dev-7" c7payload).2.2.2.2 (by decide)⟩

/-- C9 confirmed: `add_device` fails with the unknown-device-type `ValueError`
exactly when the requested type is outside {temperature, vibration, flow}; on
failure the registry is untouched, and for a known type exactly one new device
is created, registered, and returned. -/
theorem add_device_spec (reg : List SimDevice) (ty fid : String) :
    ((add_device reg ty fid).1 = .error ("Unknown device type: " ++ ty) ↔
      ty ∉ DEVICE_TYPES_keys) ∧
    (ty ∉ DEVICE_TYPES_keys → (add_device reg ty fid).2 = reg) ∧
    (ty ∈ DEVICE_TYPES_keys →
      (add_device reg ty fid).1 = .ok ⟨fid, ty⟩ ∧
      (add_device reg ty fid).2 = ⟨fid, ty⟩ :: reg) := by
  unfold add_device
  by_cases h : ty ∈ DEVICE_TYPES_keys <;> simp [h]

/-- C9 witness: a rejected type leaves the registry unchanged; a known type is
registered. -/
theorem add_device_spec_witness :
    (add_device [] "quantum" "id-1").2 = [] ∧
    (add_device [] "flow" "id-2").1 = .ok ⟨"id-2", "flow"⟩ :=
  ⟨(add_device_spec [] "quantum" "id-1").2.1 (by decide),
   ((add_device_spec [] "flow" "id-2").2.2 (by decide)).1⟩

/-- C4 confirmed: the failure-injection lifecycle. (i) Entering the failure
state sets `failure_duration` to the drawn value (`randint(5, 20)`, so within
5–20); (ii) the invariant "`failure_state=true` implies `failure_duration>0`"
is preserved by every tick; (iii) while failed, the duration decrements exactly
once per tick; (iv) the state reverts to false exactly when the decremented
duration reaches zero; (v) from a freshly entered state `⟨true, d⟩`, any `k ≤ d`
further ticks leave state `⟨k < d, d - k⟩` and every one of those ticks emits
an error payload; (vi) whenever `simulate_failure` reports a failure tick, the
emitted temperature telemetry is the error-shaped payload, not the physics
model. -/
theorem failure_lifecycle :
    (∀ (dr : Int) (s : FailState), s.failure_state = false → 5 ≤ dr → dr ≤ 20 →
      simulate_failure true dr s = (true, ⟨true, dr⟩) ∧
      5 ≤ (simulate_failure true dr s).2.failure_duration ∧
      (simulate_failure true dr s).2.failure_duration ≤ 20) ∧
    (∀ (trig : Bool) (dr : Int) (s : FailState), FailInv s → 5 ≤ dr →
      FailInv (simulate_failure trig dr s).2) ∧
    (∀ (trig : Bool) (dr : Int) (s : FailState), s.failure_state = true →
      (simulate_failure trig dr s).2.failure_duration = s.failure_duration - 1) ∧
    (∀ (trig : Bool) (dr : Int) (s : FailState), s.failure_state = true →
      ((simulate_failure trig dr s).2.failure_state = false ↔
        s.failure_duration - 1 ≤ 0)) ∧
    (∀ (ts : List TickIn) (d : Int), 0 < d → (ts.length : Int) ≤ d →
      runTicks ts ⟨true, d⟩ = ⟨decide ((ts.length : Int) < d), d - ts.length⟩ ∧
      emitsErr ts ⟨true, d⟩ = List.replicate ts.length true) ∧
    (∀ (p : TempParams) (r : TempRand) (t : ℚ) (s : FailState),
      (simulate_failure r.trig r.drawn s).1 = true →
      (temp_generate p r t s).1 = .err r.errcode) := by
  refine ⟨?_, ?_, ?_, ?_, ?_, ?_⟩
  · intro dr s hs h5 h20
    simp [simulate_failure, hs, h5, h20]
  · intro trig dr s hInv h5
    rcases s with ⟨fs, fd⟩
    cases fs <;> cases trig <;> (simp_all [simulate_failure, FailInv]; try omega)
  · intro trig dr s hs
    rcases s with ⟨fs, fd⟩
    subst hs
    simp [simulate_failure]
  · intro trig dr s hs
    rcases s with ⟨fs, fd⟩
    subst hs
    by_cases hd : fd - 1 ≤ 0 <;> simp [simulate_failure, hd]
  · intro ts
    induction ts with
    | nil =>
      intro d hd _
      constructor
      · simp [runTicks, hd]
      · simp [emitsErr]
    | cons i ts ih =>
      intro d hd hlen
      have hstep : simulate_failure i.trig i.drawn ⟨true, d⟩ =
          (true, ⟨if d - 1 ≤ 0 then false else true, d - 1⟩) := by
        simp [simulate_failure]
      have hlen' : (ts.length : Int) + 1 ≤ d := by
        simpa [Int.ofNat_succ] using hlen
      by_cases hd1 : d - 1 ≤ 0
      · -- d = 1, so the tick list must be exactly this one tick
        have hts : ts = [] := by
          have : (ts.length : Int) ≤ 0 := by omega
          have : ts.length = 0 := by omega
          exact List.length_eq_zero.mp this
        subst hts
        constructor
        · simp [runTicks, hstep, hd1]
          omega
        · simp [emitsErr, runTicks, hstep]
      · have hrec := ih (d - 1) (by omega) (by omega)
        constructor
        · have : runTicks (i :: ts) ⟨true, d⟩ = runTicks ts ⟨true, d - 1⟩ := by
            simp [runTicks, hstep, hd1]
          rw [this, hrec.1]
          have hdec : decide ((ts.length : Int) < d - 1) =
              decide (((i :: ts).length : Int) < d) := by
            simp only [List.length_cons]
            by_cases h : (ts.length : Int) < d - 1
            · have h2 : ((ts.length : Int)) + 1 < d := by omega
              simp [h, h2, Int.ofNat_succ]
            · have h2 : ¬ (((ts.length : Int)) + 1 < d) := by omega
              simp [h, h2, Int.ofNat_succ]
          rw [hdec]
          simp [Int.ofNat_succ]
          omega
        · have : emitsErr (i :: ts) ⟨true, d⟩ =
              true :: emitsErr ts ⟨true, d - 1⟩ := by
            simp [emitsErr, hstep, hd1]
          rw [this, hrec.2]
          simp [List.replicate]
  · intro p r t s hfail
    simp [temp_generate, hfail]

/-- C4 witness: a fresh failure entry draws the given duration, and a
2-tick window from `⟨true, 2⟩` stays error-emitting and ends cleared. -/
theorem failure_lifecycle_witness :
    simulate_failure true 7 ⟨false, 0⟩ = (true, ⟨true, 7⟩) ∧
    runTicks [⟨false, 9⟩, ⟨true, 11⟩] ⟨true, 2⟩ = ⟨false, 0⟩ ∧
    emitsErr [⟨false, 9⟩, ⟨true, 11⟩] ⟨true, 2⟩ = [true, true] := by
  refine ⟨(failure_lifecycle.1 7 ⟨false, 0⟩ rfl (by decide) (by decide)).1, ?_, ?_⟩
  · exact (failure_lifecycle.2.2.2.2.1 [⟨false, 9⟩, ⟨true, 11⟩] 2 (by decide)
      (by decide)).1.trans (by decide)
  · exact (failure_lifecycle.2.2.2.2.1 [⟨false, 9⟩, ⟨true, 11⟩] 2 (by decide)
      (by decide)).2.trans (by decide)

/-- The candidate-state list is never empty, so `random.choices` always has a
population to draw from. -/
theorem vib_states_ne_nil (last : Option String) : vib_states last ≠ [] := by
  unfold vib_states
  split_ifs <;> simp

/-- An arbitrary-index draw from a non-empty list is an element of the list. -/
theorem getD_mod_mem (l : List String) (i : Nat) (d : String) (hl : l ≠ []) :
    l.getD (i % l.length) d ∈ l := by
  have hlen : 0 < l.length := List.length_pos.mpr hl
  have hi : i % l.length < l.length := Nat.mod_lt _ hlen
  rw [List.getD_eq_getElem?_getD, List.getElem?_eq_getElem hi]
  exact List.getElem_mem hi

/-- Shape of one `vib_generate` tick: either the failure branch fired and the
sample reads `machine_state="fault"` with `last_reading` untouched, or the
normal branch drew a machine state from the candidate list and stored it. -/
theorem vib_generate_cases (r : VibRand) (s : FailState) (last : Option String) :
    ((simulate_failure r.trig r.drawn s).1 = true ∧
      vib_generate r s last =
        (⟨"fault", some r.errcode⟩, (simulate_failure r.trig r.drawn s).2, last)) ∨
    ((simulate_failure r.trig r.drawn s).1 = false ∧
      ∃ ms ∈ vib_states last,
        vib_generate r s last =
          (⟨ms, none⟩, (simulate_failure r.trig r.drawn s).2, some ms)) := by
  cases hfs : (simulate_failure r.trig r.drawn s).1
  · right
    refine ⟨rfl, (vib_states last).getD (r.choice % (vib_states last).length) "on",
      getD_mod_mem _ _ _ (vib_states_ne_nil last), ?_⟩
    simp [vib_generate, hfs]
  · left
    exact ⟨rfl, by simp [vib_generate, hfs]⟩

/-- C5 counterexample: a vibration sample with `machine_state="starting"`
immediately followed by a failure-injected tick yields a sample with
`machine_state="fault"`, which is outside {on, starting} — the claimed
continuity does not hold across failure-path samples. -/
theorem vib_continuity_counterexample :
    (vib_generate ⟨false, 5, "F000", 6⟩ ⟨false, 0⟩ none).1.machine_state = "starting" ∧
    (vib_generate ⟨true, 5, "F123", 0⟩
        (vib_generate ⟨false, 5, "F000", 6⟩ ⟨false, 0⟩ none).2.1
        (vib_generate ⟨false, 5, "F000", 6⟩ ⟨false, 0⟩ none).2.2).1.machine_state =
      "fault" ∧
    ¬ ("fault" = "on" ∨ "fault" = "starting") := by
  decide

/-- C5 amended: for any two consecutively emitted vibration samples where the
second one is on the NON-FAILURE path, a sample following a `starting` sample
has machine_state in {on, starting}, and one following a `stopping` sample has
machine_state in {off, stopping}; a failure-path sample instead reads `fault`
(and leaves `last_reading` unchanged). -/
theorem vib_continuity_amended (r1 r2 : VibRand) (s0 : FailState) (l0 : Option String)
    (hok2 : (vib_generate r2 (vib_generate r1 s0 l0).2.1
        (vib_generate r1 s0 l0).2.2).1.error_code = none) :
    ((vib_generate r1 s0 l0).1.machine_state = "starting" →
      (vib_generate r2 (vib_generate r1 s0 l0).2.1
          (vib_generate r1 s0 l0).2.2).1.machine_state = "on" ∨
      (vib_generate r2 (vib_generate r1 s0 l0).2.1
          (vib_generate r1 s0 l0).2.2).1.machine_state = "starting") ∧
    ((vib_generate r1 s0 l0).1.machine_state = "stopping" →
      (vib_generate r2 (vib_generate r1 s0 l0).2.1
          (vib_generate r1 s0 l0).2.2).1.machine_state = "off" ∨
      (vib_generate r2 (vib_generate r1 s0 l0).2.1
          (vib_generate r1 s0 l0).2.2).1.machine_state = "stopping") := by
  rcases vib_generate_cases r1 s0 l0 with ⟨_, h1⟩ | ⟨_, ms1, hms1, h1⟩
  · rw [h1]
    constructor <;> (intro h; simp at h)
  · rw [h1]
    rw [h1] at hok2
    rcases vib_generate_cases r2 (simulate_failure r1.trig r1.drawn s0).2 (some ms1) with
      ⟨_, h2⟩ | ⟨_, ms2, hms2, h2⟩
    · rw [h2] at hok2
      simp at hok2
    · rw [h2]
      constructor <;> intro hstate <;> dsimp only at hstate ⊢ <;> subst hstate <;>
        simp [vib_states] at hms2 <;> tauto

/-- C5 amended witness: concrete starting-sample tick followed by a concrete
non-failure tick. -/
theorem vib_continuity_amended_witness :
    (vib_generate ⟨false, 5, "F001", 1⟩
        (vib_generate ⟨false, 5, "F000", 6⟩ ⟨false, 0⟩ none).2.1
        (vib_generate ⟨false, 5, "F000", 6⟩ ⟨false, 0⟩ none).2.2).1.machine_state = "on" ∨
    (vib_generate ⟨false, 5, "F001", 1⟩
        (vib_generate ⟨false, 5, "F000", 6⟩ ⟨false, 0⟩ none).2.1
        (vib_generate ⟨false, 5, "F000", 6⟩ ⟨false, 0⟩ none).2.2).1.machine_state =
      "starting" :=
  (vib_continuity_amended ⟨false, 5, "F000", 6⟩ ⟨false, 5, "F001", 1⟩ ⟨false, 0⟩ none
    (by decide)).1 (by decide)

/-- C3 counterexample: with the default `noise_factor = 0.05`, base temperature
10, no daily/hourly variation, a neutral temperature-noise draw (`uT = 1/2`)
and a high humidity-noise draw (`uH = 9/10`), the clamped humidity 95 is
perturbed to 98.8 — the emitted humidity leaves [30, 95], because the code
applies `add_noise` AFTER the clamp. -/
theorem humidity_clamp_counterexample :
    (temp_data ⟨10, 0, 0, 1/20⟩ ⟨false, 5, "E000", 0, 0, 1/2, 9/10⟩ 0).humidity = 494/5 ∧
    ¬ (30 ≤ (temp_data ⟨10, 0, 0, 1/20⟩ ⟨false, 5, "E000", 0, 0, 1/2, 9/10⟩ 0).humidity ∧
       (temp_data ⟨10, 0, 0, 1/20⟩ ⟨false, 5, "E000", 0, 0, 1/2, 9/10⟩ 0).humidity ≤ 95) := by
  have h : (temp_data ⟨10, 0, 0, 1/20⟩ ⟨false, 5, "E000", 0, 0, 1/2, 9/10⟩ 0).humidity =
      494/5 := by
    have h1 : (temp_data ⟨10, 0, 0, 1/20⟩ ⟨false, 5, "E000", 0, 0, 1/2, 9/10⟩ 0).humidity =
        round2 (494/5) := by
      simp only [temp_data]
      norm_num [add_noise, temp_humidity_clamped]
    rw [h1, round2_eval (494/5) 9880 (by norm_num)]
    norm_num
  refine ⟨h, ?_⟩
  rw [h]
  intro hc
  have := hc.2
  norm_num at this

/-- C3 amended: the clamp to [30, 95] is applied to the humidity BEFORE noise —
for every input temperature the clamped value is within [30, 95] — while the
emitted humidity (noise applied after the clamp, then rounded) is only within
the noise-widened interval [30(1−noise_factor) − 1/200, 95(1+noise_factor) + 1/200]
and can leave [30, 95] whenever `noise_factor > 0`. -/
theorem humidity_clamp_amended (p : TempParams) (r : TempRand) (t : ℚ)
    (hf0 : 0 ≤ p.noise_factor) (hf1 : p.noise_factor ≤ 1)
    (hu0 : 0 ≤ r.uH) (hu1 : r.uH < 1) :
    (∀ temperature, 30 ≤ temp_humidity_clamped temperature ∧
        temp_humidity_clamped temperature ≤ 95) ∧
    30 * (1 - p.noise_factor) - 1/200 ≤ (temp_data p r t).humidity ∧
    (temp_data p r t).humidity ≤ 95 * (1 + p.noise_factor) + 1/200 := by
  have hcb : ∀ T : ℚ, 30 ≤ temp_humidity_clamped T ∧ temp_humidity_clamped T ≤ 95 := by
    intro T
    unfold temp_humidity_clamped
    exact ⟨le_max_left _ _, max_le (by norm_num) (min_le_left _ _)⟩
  have hhum : (temp_data p r t).humidity =
      round2 (add_noise p.noise_factor r.uH (temp_humidity_clamped
        (add_noise p.noise_factor r.uT
          (p.base_temperature + r.df * p.daily_variation + r.hf * p.hourly_noise)))) := rfl
  obtain ⟨hc30, hc95⟩ := hcb (add_noise p.noise_factor r.uT
      (p.base_temperature + r.df * p.daily_variation + r.hf * p.hourly_noise))
  set c := temp_humidity_clamped (add_noise p.noise_factor r.uT
      (p.base_temperature + r.df * p.daily_variation + r.hf * p.hourly_noise)) with hc
  have hc0 : (0:ℚ) ≤ c := by linarith
  have hlo : 30 * (1 - p.noise_factor) ≤ add_noise p.noise_factor r.uH c := by
    unfold add_noise
    nlinarith [mul_nonneg (mul_nonneg (by linarith : (0:ℚ) ≤ r.uH * 2) hf0) hc0,
      mul_nonneg (by linarith : (0:ℚ) ≤ c - 30) (by linarith : (0:ℚ) ≤ 1 - p.noise_factor)]
  have hhi : add_noise p.noise_factor r.uH c ≤ 95 * (1 + p.noise_factor) := by
    unfold add_noise
    nlinarith [mul_nonneg (mul_nonneg (by linarith : (0:ℚ) ≤ 2 - r.uH * 2) hf0) hc0,
      mul_nonneg (by linarith : (0:ℚ) ≤ 95 - c) (by linarith : (0:ℚ) ≤ 1 + p.noise_factor)]
  refine ⟨hcb, ?_, ?_⟩
  · rw [hhum]
    have := round2_ge (add_noise p.noise_factor r.uH c)
    linarith
  · rw [hhum]
    have := round2_le (add_noise p.noise_factor r.uH c)
    linarith

/-- C3 amended witness at the counterexample's concrete inputs. -/
theorem humidity_clamp_amended_witness :
    30 * (1 - (1/20 : ℚ)) - 1/200 ≤
      (temp_data ⟨10, 0, 0, 1/20⟩ ⟨false, 5, "E000", 0, 0, 1/2, 9/10⟩ 0).humidity ∧
    (temp_data ⟨10, 0, 0, 1/20⟩ ⟨false, 5, "E000", 0, 0, 1/2, 9/10⟩ 0).humidity ≤
      95 * (1 + (1/20 : ℚ)) + 1/200 :=
  ⟨(humidity_clamp_amended ⟨10, 0, 0, 1/20⟩ ⟨false, 5, "E000", 0, 0, 1/2, 9/10⟩ 0
      (by norm_num : (0:ℚ) ≤ 1/20) (by norm_num : (1/20:ℚ) ≤ 1)
      (by norm_num : (0:ℚ) ≤ 9/10) (by norm_num : (9/10:ℚ) < 1)).2.1,
   (humidity_clamp_amended ⟨10, 0, 0, 1/20⟩ ⟨false, 5, "E000", 0, 0, 1/2, 9/10⟩ 0
      (by norm_num : (0:ℚ) ≤ 1/20) (by norm_num : (1/20:ℚ) ≤ 1)
      (by norm_num : (0:ℚ) ≤ 9/10) (by norm_num : (9/10:ℚ) < 1)).2.2⟩

/-- The time-of-day flow factor is always at least 3/5 (its smallest bucket). -/
theorem flow_factor_base_ge (hour : ℚ) : 3/5 ≤ flow_factor_base hour := by
  unfold flow_factor_base
  split_ifs <;> norm_num

/-- Under valid configuration (`noise_factor ∈ [0,1]`, noise draw in `[0,1)`,
perturbation in `[-0.1, 0.1]`, nonnegative target rate) the computed flow rate
is nonnegative. -/
theorem flow_rate_calc_nonneg (p : FlowParams) (r : FlowRand) (t : ℚ)
    (hf0 : 0 ≤ p.noise_factor) (hf1 : p.noise_factor ≤ 1)
    (hu : 0 ≤ r.uFlow) (hp : -(1/10) ≤ r.perturb) (htgt : 0 ≤ p.target_flow_rate) :
    0 ≤ flow_rate_calc p r t := by
  unfold flow_rate_calc add_noise
  have hfac := flow_factor_base_ge (qmod t 86400 / 3600)
  have hb : 0 ≤ p.target_flow_rate * (flow_factor_base (qmod t 86400 / 3600) + r.perturb) :=
    mul_nonneg htgt (by linarith)
  nlinarith [mul_nonneg (mul_nonneg (by linarith : (0:ℚ) ≤ r.uFlow * 2) hf0) hb,
    mul_nonneg (by linarith : (0:ℚ) ≤ 1 - p.noise_factor) hb]

/-- C8 confirmed: for a fixed flow meter on consecutive non-failure ticks (and
a valid configuration), the emitted `total_flow` is non-decreasing; the second
tick's value is exactly the rounded sum of the previous cumulative value and
`flow_rate/60`; and a first tick (no previous reading) seeds the baseline
drawn from `uniform(10000, 50000)`. -/
theorem flow_total_monotone (p : FlowParams) (r1 r2 : FlowRand) (t1 t2 : ℚ)
    (last : Option FlowData)
    (hf0 : 0 ≤ p.noise_factor) (hf1 : p.noise_factor ≤ 1)
    (hu : 0 ≤ r2.uFlow) (hp : -(1/10) ≤ r2.perturb) (htgt : 0 ≤ p.target_flow_rate) :
    (flow_data p r1 t1 last).total_flow ≤
      (flow_data p r2 t2 (some (flow_data p r1 t1 last))).total_flow ∧
    (flow_data p r2 t2 (some (flow_data p r1 t1 last))).total_flow =
      round2 ((flow_data p r1 t1 last).total_flow + flow_rate_calc p r2 t2 / 60) ∧
    (last = none → (flow_data p r1 t1 last).total_flow = round2 r1.baseline) := by
  have hT1 : ∃ y, (flow_data p r1 t1 last).total_flow = round2 y := by
    cases last with
    | none => exact ⟨r1.baseline, rfl⟩
    | some d => exact ⟨d.total_flow + flow_rate_calc p r1 t1 / 60, rfl⟩
  obtain ⟨y, hy⟩ := hT1
  have hδ : 0 ≤ flow_rate_calc p r2 t2 / 60 := by
    have := flow_rate_calc_nonneg p r2 t2 hf0 hf1 hu hp htgt
    linarith
  have h2 : (flow_data p r2 t2 (some (flow_data p r1 t1 last))).total_flow =
      round2 ((flow_data p r1 t1 last).total_flow + flow_rate_calc p r2 t2 / 60) := rfl
  refine ⟨?_, h2, ?_⟩
  · rw [h2, hy]
    calc round2 y = round2 (round2 y) := (round2_fix y).symm
      _ ≤ round2 (round2 y + flow_rate_calc p r2 t2 / 60) := round2_mono (by linarith)
  · intro hnone
    subst hnone
    rfl

/-- C8 witness: a concrete first tick (baseline 10000) followed by a second
tick whose cumulative total does not decrease. -/
theorem flow_total_monotone_witness :
    (flow_data ⟨"water", 10, 5, 0⟩ ⟨false, 5, "E000", 0, 0, 0, 0, 0, 10000⟩ 0 none).total_flow ≤
      (flow_data ⟨"water", 10, 5, 0⟩ ⟨false, 5, "E001", 0, 0, 0, 0, 0, 20000⟩ 0
        (some (flow_data ⟨"water", 10, 5, 0⟩
          ⟨false, 5, "E000", 0, 0, 0, 0, 0, 10000⟩ 0 none))).total_flow :=
  (flow_total_monotone ⟨"water", 10, 5, 0⟩ ⟨false, 5, "E000", 0, 0, 0, 0, 0, 10000⟩
    ⟨false, 5, "E001", 0, 0, 0, 0, 0, 20000⟩ 0 0 none
    (by norm_num : (0:ℚ) ≤ 0) (by norm_num : (0:ℚ) ≤ 1)
    (by norm_num : (0:ℚ) ≤ 0) (by norm_num : -(1/10 : ℚ) ≤ 0)
    (by norm_num : (0:ℚ) ≤ 10)).1

/-- C10 confirmed: the emitted battery level of every non-failure temperature
sample lies in [80, 100] (the 30-day cycle drains at most 20%, and no noise is
applied to the battery), so the `battery < 20` low-severity anomaly rule never
fires on simulator-generated temperature samples. -/
theorem battery_bounds (p : TempParams) (r : TempRand) (t : ℚ) :
    80 ≤ (temp_data p r t).battery ∧ (temp_data p r t).battery ≤ 100 ∧
    ∀ a ∈ temp_detect_anomalies (temp_data p r t),
      a.description ≠ "Low battery" ∧ ¬ (a.severity = "low" ∧ a.threshold = 20) := by
  have hq0 : 0 ≤ qmod t 2592000 := qmod_nonneg t 2592000 (by norm_num)
  have hq1 : qmod t 2592000 < 2592000 := qmod_lt t 2592000 (by norm_num)
  have hb : (temp_data p r t).battery = round2 (temp_battery_level t) := rfl
  have hbl : 80 < temp_battery_level t := by
    unfold temp_battery_level
    have h20 : qmod t 2592000 / 2592000 * 20 < 20 := by
      rw [div_mul_eq_mul_div, div_lt_iff₀ (by norm_num : (0:ℚ) < 2592000)]
      nlinarith [hq1]
    linarith
  have hbu : temp_battery_level t ≤ 100 := by
    unfold temp_battery_level
    have h0 : 0 ≤ qmod t 2592000 / 2592000 * 20 :=
      mul_nonneg (div_nonneg hq0 (by norm_num)) (by norm_num)
    linarith
  have h80 : round2 (80 : ℚ) = 80 := by
    rw [round2_eval 80 8000 (by norm_num)]
    norm_num
  have h100 : round2 (100 : ℚ) = 100 := by
    rw [round2_eval 100 10000 (by norm_num)]
    norm_num
  have hge : 80 ≤ (temp_data p r t).battery := by
    rw [hb, ← h80]
    exact round2_mono (by linarith)
  have hle : (temp_data p r t).battery ≤ 100 := by
    rw [hb, ← h100]
    exact round2_mono (by linarith)
  refine ⟨hge, hle, ?_⟩
  intro a ha
  have hlt : ¬ ((temp_data p r t).battery < 20) := by linarith
  unfold temp_detect_anomalies at ha
  rw [if_neg hlt, List.append_nil] at ha
  rcases List.mem_append.mp ha with h | h <;>
    (split_ifs at h <;> simp at h <;> subst h <;> exact ⟨by simp, by simp⟩)

/-- C10 witness: a concrete non-failure sample has battery 100 within [80, 100],
and its one (high-humidity) anomaly is not the low-battery rule. -/
theorem battery_bounds_witness :
    80 ≤ (temp_data ⟨10, 0, 0, 1/20⟩ ⟨false, 5, "E000", 0, 0, 1/2, 9/10⟩ 0).battery ∧
    (temp_data ⟨10, 0, 0, 1/20⟩ ⟨false, 5, "E000", 0, 0, 1/2, 9/10⟩ 0).battery ≤ 100 ∧
    ((⟨"medium", "High humidity detected", 494/5, 90⟩ : TempAnomaly).description ≠
        "Low battery" ∧
      ¬ ((⟨"medium", "High humidity detected", 494/5, 90⟩ : TempAnomaly).severity = "low" ∧
         (⟨"medium", "High humidity detected", 494/5, 90⟩ : TempAnomaly).threshold = 20)) := by
  have e1 : (temp_data ⟨10, 0, 0, 1/20⟩ ⟨false, 5, "E000", 0, 0, 1/2, 9/10⟩ 0).temperature =
      10 := by
    have h1 : (temp_data ⟨10, 0, 0, 1/20⟩ ⟨false, 5, "E000", 0, 0, 1/2, 9/10⟩ 0).temperature =
        round2 10 := by
      simp only [temp_data]
      norm_num [add_noise]
    rw [h1, round2_eval 10 1000 (by norm_num)]
    norm_num
  have e2 : (temp_data ⟨10, 0, 0, 1/20⟩ ⟨false, 5, "E000", 0, 0, 1/2, 9/10⟩ 0).humidity =
      494/5 := by
    have h1 : (temp_data ⟨10, 0, 0, 1/20⟩ ⟨false, 5, "E000", 0, 0, 1/2, 9/10⟩ 0).humidity =
        round2 (494/5) := by
      simp only [temp_data]
      norm_num [add_noise, temp_humidity_clamped]
    rw [h1, round2_eval (494/5) 9880 (by norm_num)]
    norm_num
  have e3 : (temp_data ⟨10, 0, 0, 1/20⟩ ⟨false, 5, "E000", 0, 0, 1/2, 9/10⟩ 0).battery =
      100 := by
    have hq : qmod 0 2592000 = 0 := by
      unfold qmod
      rw [rat_floor_eq]
      norm_num
    have h1 : (temp_data ⟨10, 0, 0, 1/20⟩ ⟨false, 5, "E000", 0, 0, 1/2, 9/10⟩ 0).battery =
        round2 (temp_battery_level 0) := rfl
    have h2 : temp_battery_level 0 = 100 := by
      unfold temp_battery_level
      rw [hq]
      norm_num
    rw [h1, h2, round2_eval 100 10000 (by norm_num)]
    norm_num
  have hmem : (⟨"medium", "High humidity detected", 494/5, 90⟩ : TempAnomaly) ∈
      temp_detect_anomalies (temp_data ⟨10, 0, 0, 1/20⟩ ⟨false, 5, "E000", 0, 0, 1/2, 9/10⟩ 0) := by
    unfold temp_detect_anomalies
    rw [e1, e2, e3]
    norm_num
  exact ⟨(battery_bounds ⟨10, 0, 0, 1/20⟩ ⟨false, 5, "E000", 0, 0, 1/2, 9/10⟩ 0).1,
    (battery_bounds ⟨10, 0, 0, 1/20⟩ ⟨false, 5, "E000", 0, 0, 1/2, 9/10⟩ 0).2.1,
    (battery_bounds ⟨10, 0, 0, 1/20⟩ ⟨false, 5, "E000", 0, 0, 1/2, 9/10⟩ 0).2.2 _ hmem⟩
